import Mathlib

/-!
Shallow embedding of the golazo-alert-bot opportunity-detection pipeline.

JavaScript numbers are modelled as rationals (ℚ); fields the source guards
with optional chaining (`?.`) or `|| default` are modelled as `Option` with
an explicit default. The embedding covers:
  * the Rule Engine (`src/ml/rule-engine.js`),
  * the Prediction Fusion Engine (`src/ml/predictor.js`),
  * the Golden-Moment Detector (golden-detector source file),
  * the Match Selector scoring/truncation pipeline (match-selector source file),
  * the controller's cooldown/dedup logic (`src/core/controller.js`).
Asynchronous collaborator calls (HTTP fetches, database reads, TensorFlow
model invocations, Math.random) are modelled as explicit parameters.
-/

namespace Golazo

/-- MarketPrediction: a probability/confidence pair as produced by the rule
engine, the ML path and the fusion engine. -/
structure Prediction where
  probability : ℚ
  confidence : ℚ
deriving Repr, DecidableEq

/-- One team of a fixture (`teams.home` / `teams.away`). -/
structure Team where
  id : ℚ
  name : String
deriving Repr, DecidableEq

/-- Home/away team pair of a fixture. -/
structure TeamsInfo where
  home : Team
  away : Team
deriving Repr, DecidableEq

/-- Current score of a fixture (`matchData.score`). Goals are natural
numbers; the source defaults missing fields to 0 via `|| 0`. -/
structure Score where
  home : ℕ
  away : ℕ
deriving Repr, DecidableEq

/-- One raw statistic entry (`{type, value}`); the source parses the string
value with `parseInt` (stripping a trailing percent sign for possession),
modelled here as an already-parsed optional number. -/
structure StatEntry where
  type : String
  value : Option ℚ
deriving Repr, DecidableEq

/-- Per-team statistics block (`matchData.statistics[i].statistics`). -/
structure TeamStatBlock where
  statistics : List StatEntry
deriving Repr, DecidableEq

/-- One match event (`{time.elapsed, team.id, type, detail}`). -/
structure MatchEvent where
  timeElapsed : Option ℚ
  teamId : Option ℚ
  type : String
  detail : Option String
deriving Repr, DecidableEq

/-- One priced outcome inside a bookmaker market (`{name, point, price}`). -/
structure OddsOutcome where
  name : String
  point : Option ℚ
  price : Option ℚ
deriving Repr, DecidableEq

/-- One bookmaker market (`{key, outcomes}`). -/
structure OddsMarket where
  key : String
  outcomes : List OddsOutcome
deriving Repr, DecidableEq

/-- One bookmaker entry of `matchData.odds.bookmakers`. -/
structure Bookmaker where
  name : String
  markets : List OddsMarket
deriving Repr, DecidableEq

/-- Best price found for a market, with the per-bookmaker list
(the detector's `getOddsForMarket` return shape `{value, bookmakers}`). -/
structure BookmakerPrice where
  name : String
  value : ℚ
deriving Repr, DecidableEq

/-- Odds information attached to an opportunity. -/
structure OddsInfo where
  value : ℚ
  bookmakers : List BookmakerPrice
deriving Repr, DecidableEq

/-- Live match snapshot as consumed by the rule engine and the detector
(the combined `matchData` object). `none` models a `null`/`undefined`
field that the source guards against. -/
structure MatchData where
  id : String
  teams : Option TeamsInfo
  minute : Option ℚ
  score : Option Score
  statistics : Option (List TeamStatBlock)
  events : Option (List MatchEvent)
  odds : Option (List Bookmaker)
deriving Repr, DecidableEq

/-- Minute of play, defaulting to 0 (`matchData.minute || 0`). -/
def MatchData.minuteVal (m : MatchData) : ℚ := m.minute.getD 0

/-- Home goals, defaulting to 0 (`matchData.score?.home || 0`). -/
def MatchData.scoreHome (m : MatchData) : ℕ := (m.score.map Score.home).getD 0

/-- Away goals, defaulting to 0 (`matchData.score?.away || 0`). -/
def MatchData.scoreAway (m : MatchData) : ℕ := (m.score.map Score.away).getD 0

namespace RuleEngine

/-- Basic statistics extracted by `RuleEngine.extractStatistics`. The source
also sets `possessionAway = 100 - possessionHome` in the success branch but
never reads it inside the rule engine, so it is omitted here. -/
structure Stats where
  possessionHome : ℚ
  shotsOnTargetHome : ℚ
  shotsOnTargetAway : ℚ
  cornersHome : ℚ
  cornersAway : ℚ
  yellowCardsHome : ℚ
  yellowCardsAway : ℚ
  totalShots : ℚ
  totalCorners : ℚ
deriving Repr, DecidableEq

/-- Default statistics returned when `matchData.statistics` is absent or
empty. -/
def defaultStats : Stats :=
  { possessionHome := 50
    shotsOnTargetHome := 0
    shotsOnTargetAway := 0
    cornersHome := 0
    cornersAway := 0
    yellowCardsHome := 0
    yellowCardsAway := 0
    totalShots := 0
    totalCorners := 0 }

/-- Fold step for the home-team statistics loop: `Ball Possession` defaults
to 50 when the value is missing, the other entries default to 0. Later
entries of the same type overwrite earlier ones, as `forEach` assignment
does. -/
def applyHomeStat (s : Stats) (e : StatEntry) : Stats :=
  if e.type = "Ball Possession" then { s with possessionHome := e.value.getD 50 }
  else if e.type = "Shots on Goal" then { s with shotsOnTargetHome := e.value.getD 0 }
  else if e.type = "Corner Kicks" then { s with cornersHome := e.value.getD 0 }
  else if e.type = "Yellow Cards" then { s with yellowCardsHome := e.value.getD 0 }
  else s

/-- Fold step for the away-team statistics loop (possession is only read
from the home block in the source). -/
def applyAwayStat (s : Stats) (e : StatEntry) : Stats :=
  if e.type = "Shots on Goal" then { s with shotsOnTargetAway := e.value.getD 0 }
  else if e.type = "Corner Kicks" then { s with cornersAway := e.value.getD 0 }
  else if e.type = "Yellow Cards" then { s with yellowCardsAway := e.value.getD 0 }
  else s

/-- Statistics extraction (`RuleEngine.extractStatistics`): reads block 0 as
the home team and block 1 as the away team, then computes the derived
totals. Absent or empty statistics yield the default record. -/
def extractStatistics (m : MatchData) : Stats :=
  match m.statistics with
  | none => defaultStats
  | some blocks =>
    if blocks.isEmpty then defaultStats
    else
      let homeList := ((blocks.head?).map TeamStatBlock.statistics).getD []
      let awayList := ((blocks.drop 1).head?.map TeamStatBlock.statistics).getD []
      let s1 := homeList.foldl applyHomeStat defaultStats
      let s2 := awayList.foldl applyAwayStat s1
      { s2 with
        totalShots := s2.shotsOnTargetHome + s2.shotsOnTargetAway
        totalCorners := s2.cornersHome + s2.cornersAway }

/-- Recent-event summary produced by `RuleEngine.extractRecentEvents`. -/
structure RecentEvents where
  recentCornersHome : ℚ
  recentCornersAway : ℚ
  recentShotsHome : ℚ
  recentShotsAway : ℚ
  recentCards : ℚ
  homeAttacking : ℚ
  awayAttacking : ℚ
  lastCornerMinute : Option ℚ
deriving Repr, DecidableEq

/-- Neutral recent-event summary (attack shares 0.5, no last corner). -/
def defaultRecentEvents : RecentEvents :=
  { recentCornersHome := 0
    recentCornersAway := 0
    recentShotsHome := 0
    recentShotsAway := 0
    recentCards := 0
    homeAttacking := 1/2
    awayAttacking := 1/2
    lastCornerMinute := none }

/-- Event-side test: `event.team?.id === matchData.teams?.home?.id`. Both
sides may be absent; strict equality of two absent values is true, matching
`undefined === undefined`. -/
def eventIsHome (m : MatchData) (e : MatchEvent) : Bool :=
  decide (e.teamId = m.teams.map fun t => t.home.id)

/-- Accumulator for the recent-event counting loop: the running summary plus
the positive-event weights per side. -/
structure EventAcc where
  res : RecentEvents
  homePositive : ℚ
  awayPositive : ℚ

/-- One iteration of the recent-event loop: goals weigh 3 for the scoring
side, cards weigh 1 for the opponent, corners and shots on goal weigh 1 for
their side. -/
def applyRecentEvent (m : MatchData) (acc : EventAcc) (e : MatchEvent) : EventAcc :=
  let isHome := eventIsHome m e
  if e.type = "Goal" then
    if isHome then
      { acc with
        res := { acc.res with recentShotsHome := acc.res.recentShotsHome + 1 }
        homePositive := acc.homePositive + 3 }
    else
      { acc with
        res := { acc.res with recentShotsAway := acc.res.recentShotsAway + 1 }
        awayPositive := acc.awayPositive + 3 }
  else if e.type = "Card" then
    let acc := { acc with res := { acc.res with recentCards := acc.res.recentCards + 1 } }
    if isHome then { acc with awayPositive := acc.awayPositive + 1 }
    else { acc with homePositive := acc.homePositive + 1 }
  else if e.type = "Corner" then
    if isHome then
      { acc with
        res := { acc.res with recentCornersHome := acc.res.recentCornersHome + 1 }
        homePositive := acc.homePositive + 1 }
    else
      { acc with
        res := { acc.res with recentCornersAway := acc.res.recentCornersAway + 1 }
        awayPositive := acc.awayPositive + 1 }
  else if e.detail = some "Shot on Goal" then
    if isHome then
      { acc with
        res := { acc.res with recentShotsHome := acc.res.recentShotsHome + 1 }
        homePositive := acc.homePositive + 1 }
    else
      { acc with
        res := { acc.res with recentShotsAway := acc.res.recentShotsAway + 1 }
        awayPositive := acc.awayPositive + 1 }
  else acc

/-- Recent-event extraction (`RuleEngine.extractRecentEvents`): events of the
last 15 minutes are counted per side; the last corner minute is taken from
the full event list (with `|| null` coercing a 0 minute to null); the attack
shares are the per-side fractions of positive events when any were seen. -/
def extractRecentEvents (m : MatchData) : RecentEvents :=
  match m.events with
  | none => defaultRecentEvents
  | some events =>
    if events.isEmpty then defaultRecentEvents
    else
      let currentMinute := m.minuteVal
      let recent := events.filter fun e => decide (currentMinute - e.timeElapsed.getD 0 ≤ 15)
      let cornerEvents := events.filter fun e => decide (e.type = "Corner")
      let lastCornerMinute : Option ℚ :=
        match cornerEvents.getLast? with
        | none => none
        | some ev =>
          match ev.timeElapsed with
          | none => none
          | some t => if t = 0 then none else some t
      let start : EventAcc := ⟨{ defaultRecentEvents with lastCornerMinute := lastCornerMinute }, 0, 0⟩
      let acc := recent.foldl (applyRecentEvent m) start
      let totalEvents := acc.homePositive + acc.awayPositive
      if totalEvents > 0 then
        { acc.res with
          homeAttacking := acc.homePositive / totalEvents
          awayAttacking := acc.awayPositive / totalEvents }
      else acc.res

/-- Named factor weights: each factor of the rule engine is a `(name, weight)`
pair pushed onto a side's list. -/
def Factor := String × ℚ

/-- Sum of the weights of a factor list (`reduce((sum, f) => sum + f.weight, 0)`). -/
def weightSum (fs : List (String × ℚ)) : ℚ := fs.foldl (fun s f => s + f.2) 0

/-- Factors favouring the home side for the next-goal market: possession above
65, a shots-on-target edge above 3, a corner edge above 2, and recent
momentum above 0.5. -/
def nextGoalHomeFactors (m : MatchData) : List (String × ℚ) :=
  let stats := extractStatistics m
  let recent := extractRecentEvents m
  (if stats.possessionHome > 65 then [("posesion", (2 : ℚ))] else []) ++
  (if stats.shotsOnTargetHome > stats.shotsOnTargetAway + 3 then [("tiros", (3 : ℚ))] else []) ++
  (if stats.cornersHome > stats.cornersAway + 2 then [("corners", (1 : ℚ))] else []) ++
  (if recent.homeAttacking > 1/2 then [("momentum", (2 : ℚ))] else [])

/-- Factors favouring the away side for the next-goal market; each one is the
`else if` alternative of the corresponding home factor. -/
def nextGoalAwayFactors (m : MatchData) : List (String × ℚ) :=
  let stats := extractStatistics m
  let recent := extractRecentEvents m
  (if stats.possessionHome > 65 then []
   else if 100 - stats.possessionHome > 65 then [("posesion", (2 : ℚ))] else []) ++
  (if stats.shotsOnTargetHome > stats.shotsOnTargetAway + 3 then []
   else if stats.shotsOnTargetAway > stats.shotsOnTargetHome + 3 then [("tiros", (3 : ℚ))] else []) ++
  (if stats.cornersHome > stats.cornersAway + 2 then []
   else if stats.cornersAway > stats.cornersHome + 2 then [("corners", (1 : ℚ))] else []) ++
  (if recent.homeAttacking > 1/2 then []
   else if recent.awayAttacking > 1/2 then [("momentum", (2 : ℚ))] else [])

/-- Summed home-factor weight for the next-goal market. -/
def nextGoalHomeWeight (m : MatchData) : ℚ := weightSum (nextGoalHomeFactors m)

/-- Summed away-factor weight for the next-goal market. -/
def nextGoalAwayWeight (m : MatchData) : ℚ := weightSum (nextGoalAwayFactors m)

/-- Next-goal evaluation (`RuleEngine.evaluateNextGoal`): the home
probability starts neutral at 0.5 and, when any factor fired, becomes
`0.5 + (homeWeight - awayWeight) / (totalWeight * 2)`; confidence starts at
the 0.5 base and gains 0.05 per fired factor, capped at 0.9; the probability
is clamped to [0.1, 0.9]. -/
def evaluateNextGoal (m : MatchData) : Prediction :=
  let homeFactors := nextGoalHomeFactors m
  let awayFactors := nextGoalAwayFactors m
  let homeTotalWeight := weightSum homeFactors
  let awayTotalWeight := weightSum awayFactors
  let totalWeight := homeTotalWeight + awayTotalWeight
  let homeProbability : ℚ :=
    if totalWeight > 0 then 1/2 + (homeTotalWeight - awayTotalWeight) / (totalWeight * 2)
    else 1/2
  let confidence : ℚ :=
    if totalWeight > 0 then
      min (9/10) (1/2 + ((homeFactors.length + awayFactors.length : ℕ) : ℚ) * (1/20))
    else 1/2
  { probability := max (1/10) (min (9/10) homeProbability), confidence := confidence }

/-- Over-factor list (`evaluateOver`): goal pace projecting above the line
(+3), more than 10 total shots (+2), more than 8 total corners (+1), and a
time-remaining factor (+2 with time to spare, −3 when short). -/
def overFactors (m : MatchData) (threshold : ℚ) : List (String × ℚ) :=
  let minute := m.minuteVal
  let totalGoals : ℚ := (m.scoreHome : ℚ) + (m.scoreAway : ℚ)
  let stats := extractStatistics m
  let goalsNeeded : ℚ := (⌈threshold - totalGoals⌉ : ℤ)
  let minutesLeft : ℚ := 90 - minute
  let currentRate : ℚ := if minute > 0 then totalGoals / minute else 0
  let projectedGoals := currentRate * 90
  let timeNeeded := goalsNeeded * 30
  (if projectedGoals > threshold then [("ritmo", (3 : ℚ))] else []) ++
  (if stats.totalShots > 10 then [("tiros", (2 : ℚ))] else []) ++
  (if stats.totalCorners > 8 then [("corners", (1 : ℚ))] else []) ++
  (if minutesLeft > timeNeeded * (3/2) then [("tiempo", (2 : ℚ))]
   else if minutesLeft < timeNeeded * (1/2) then [("tiempo", (-3 : ℚ))] else [])

/-- Base probability per over line: 0.75 for over 0.5, 0.6 for over 1.5 and
0.5 otherwise. -/
def overBaseProbability (threshold : ℚ) : ℚ :=
  if threshold = 1/2 then 3/4 else if threshold = 3/2 then 3/5 else 1/2

/-- Base confidence per over line (the `baseConfidence` table keyed by the
formatted threshold). Lines other than 0.5/1.5/2.5 never reach this lookup
through `evaluate`; the source would yield `undefined` for them. -/
def overBaseConfidence (threshold : ℚ) : ℚ :=
  if threshold = 1/2 then 3/5 else if threshold = 3/2 then 1/2
  else if threshold = 5/2 then 2/5 else 0

/-- Over/under evaluation (`RuleEngine.evaluateOver`): a line already beaten
by the current score returns the deterministic (1, 1) pair; otherwise the
base probability is adjusted by the factor total over a maximum weight of 8,
scaled by the match-phase factor, penalised when too little time remains for
the needed goals, and clamped to [0.05, 0.95]. Confidence grows with factor
magnitude and elapsed time and is clamped to [0.2, 0.9]. -/
def evaluateOver (m : MatchData) (threshold : ℚ) : Prediction :=
  let minute := m.minuteVal
  let totalGoals : ℚ := (m.scoreHome : ℚ) + (m.scoreAway : ℚ)
  if totalGoals > threshold then { probability := 1, confidence := 1 }
  else
    let goalsNeeded : ℚ := (⌈threshold - totalGoals⌉ : ℤ)
    let phaseFactor : ℚ := if minute ≤ 30 then 3/5 else if minute ≤ 60 then 4/5 else 1
    let minutesLeft : ℚ := 90 - minute
    let factors := overFactors m threshold
    let totalWeight := weightSum factors
    let maxPossibleWeight : ℚ := 8
    let p1 := overBaseProbability threshold + (totalWeight / maxPossibleWeight) * (2/5)
    let p2 := p1 * phaseFactor
    let p3 := if minutesLeft < goalsNeeded * 15 then p2 * (minutesLeft / (goalsNeeded * 15)) else p2
    let probability := max (1/20) (min (19/20) p3)
    let c1 := overBaseConfidence threshold + (|totalWeight| / maxPossibleWeight) * (3/10)
      + (minute / 90) * (1/5)
    let confidence := max (1/5) (min (9/10) c1)
    { probability := probability, confidence := confidence }

/-- BTTS factor list (`evaluateBtts`): each side with at least 3 shots on
target (+2 each), the match-phase factor (−3 after minute 75, +2 before
minute 30), and one side having already scored (+3). -/
def bttsFactors (m : MatchData) : List (String × ℚ) :=
  let minute := m.minuteVal
  let stats := extractStatistics m
  let homeScored := m.scoreHome > 0
  let awayScored := m.scoreAway > 0
  (if stats.shotsOnTargetHome ≥ 3 then [("tirosLocal", (2 : ℚ))] else []) ++
  (if stats.shotsOnTargetAway ≥ 3 then [("tirosVisitante", (2 : ℚ))] else []) ++
  (if minute > 75 then [("tiempoRestante", (-3 : ℚ))]
   else if minute < 30 then [("tiempoRestante", (2 : ℚ))] else []) ++
  (if homeScored ∨ awayScored then [("unEquipoYaMarco", (3 : ℚ))] else [])

/-- BTTS evaluation (`RuleEngine.evaluateBtts`): deterministic (1, 1) once
both sides have scored; otherwise a neutral 0.5 base adjusted by the factor
total over a maximum weight of 9, scaled by the late-game factor after
minute 75, and clamped to [0.05, 0.95]. Confidence gains 0.1 once a side has
scored and is clamped to [0.2, 0.9]. -/
def evaluateBtts (m : MatchData) : Prediction :=
  let minute := m.minuteVal
  let homeScored := m.scoreHome > 0
  let awayScored := m.scoreAway > 0
  if homeScored ∧ awayScored then { probability := 1, confidence := 1 }
  else
    let factors := bttsFactors m
    let totalWeight := weightSum factors
    let maxPossibleWeight : ℚ := 9
    let p1 : ℚ := 1/2 + (totalWeight / maxPossibleWeight) * (2/5)
    let p2 := if minute > 75 then p1 * (3/5) else p1
    let probability := max (1/20) (min (19/20) p2)
    let c1 : ℚ := 1/2 + (|totalWeight| / maxPossibleWeight) * (3/10)
      + (if homeScored ∨ awayScored then 1/10 else 0)
    let confidence := max (1/5) (min (9/10) c1)
    { probability := probability, confidence := confidence }

/-- Corner factor list (`evaluateCorner`): a corner rate above 0.12 per
minute (+3), recent offensive pressure above 3 (+2), and the closing phase
of either half (+2). -/
def cornerFactors (m : MatchData) : List (String × ℚ) :=
  let minute := m.minuteVal
  let stats := extractStatistics m
  let recent := extractRecentEvents m
  let cornerRate : ℚ := if minute > 0 then stats.totalCorners / minute else 0
  let homeRecentPressure := recent.recentShotsHome + recent.recentCornersHome
  let awayRecentPressure := recent.recentShotsAway + recent.recentCornersAway
  let totalRecentPressure := homeRecentPressure + awayRecentPressure
  (if cornerRate > 3/25 then [("ritmoAlto", (3 : ℚ))] else []) ++
  (if totalRecentPressure > 3 then [("presionReciente", (2 : ℚ))] else []) ++
  (if (minute > 35 ∧ minute ≤ 45) ∨ (minute > 80 ∧ minute ≤ 90) then [("faseFinal", (2 : ℚ))]
   else [])

/-- Corner evaluation (`RuleEngine.evaluateCorner`): a 0.4 base adjusted by
the factor total over a maximum weight of 7, halved within 2 minutes of the
last corner, and clamped to [0.1, 0.9]; confidence is clamped to
[0.2, 0.8]. -/
def evaluateCorner (m : MatchData) : Prediction :=
  let minute := m.minuteVal
  let recent := extractRecentEvents m
  let factors := cornerFactors m
  let totalWeight := weightSum factors
  let maxPossibleWeight : ℚ := 7
  let p1 : ℚ := 2/5 + (totalWeight / maxPossibleWeight) * (1/2)
  let p2 :=
    match recent.lastCornerMinute with
    | none => p1
    | some lastCorner => if minute - lastCorner < 2 then p1 * (1/2) else p1
  let probability := max (1/10) (min (9/10) p2)
  let c1 : ℚ := 2/5 + (|totalWeight| / maxPossibleWeight) * (3/10)
  let confidence := max (1/5) (min (4/5) c1)
  { probability := probability, confidence := confidence }

/-- Market dispatch (`RuleEngine.evaluate`): the six supported market keys
route to their evaluator; unknown market strings return the neutral
(0.5, 0.2) pair. -/
def evaluate (market : String) (m : MatchData) : Prediction :=
  if market = "nextGoal" then evaluateNextGoal m
  else if market = "over05" then evaluateOver m (1/2)
  else if market = "over15" then evaluateOver m (3/2)
  else if market = "over25" then evaluateOver m (5/2)
  else if market = "btts" then evaluateBtts m
  else if market = "cornerNext10Min" then evaluateCorner m
  else { probability := 1/2, confidence := 1/5 }

end RuleEngine

namespace Predictor

/-- Learned estimator for one market: the TensorFlow invocation either
produces a scalar probability or throws, modelled as `Except`. -/
def MLModel := MatchData → Except String ℚ

/-- Markets supported by the predictor (`supportedMarkets`). -/
def supportedMarkets : List String :=
  ["nextGoal", "over05", "over15", "over25", "btts", "cornerNext10Min"]

/-- Certainty-derived confidence of the ML path: `0.5 + |p - 0.5| * 2 * 0.4`. -/
def mlConfidenceFromProb (p : ℚ) : ℚ := 1/2 + (|p - 1/2| * 2) * (2/5)

/-- ML prediction (`Predictor.getPredictionFromML`): `none` when no model is
loaded for the market or when the model invocation throws (the catch branch);
otherwise the raw scalar output, with no validation, paired with the
certainty-derived confidence. -/
def getPredictionFromML (models : String → Option MLModel) (market : String)
    (m : MatchData) : Option Prediction :=
  match models market with
  | none => none
  | some run =>
    match run m with
    | Except.error _ => none
    | Except.ok p => some { probability := p, confidence := mlConfidenceFromProb p }

/-- Fusion rule (`Predictor.combinePredictions`): weights are 0.7·mlConfidence
and 0.3·rulesConfidence; the probability is the weighted mean and the
confidence the larger weighted confidence. -/
def combinePredictions (mlPrediction rulesPrediction : Prediction) : Prediction :=
  let mlWeight := (7/10) * mlPrediction.confidence
  let rulesWeight := (3/10) * rulesPrediction.confidence
  let totalWeight := mlWeight + rulesWeight
  { probability :=
      (mlPrediction.probability * mlWeight + rulesPrediction.probability * rulesWeight)
        / totalWeight
    confidence :=
      max (mlPrediction.confidence * (7/10)) (rulesPrediction.confidence * (3/10)) }

/-- Fused prediction (`Predictor.predict`): unsupported markets return the
neutral (0.5, 0.2) pair; otherwise the rule prediction is always computed and
combined with the ML prediction when one is available. -/
def predict (models : String → Option MLModel) (market : String) (m : MatchData) :
    Prediction :=
  if market ∈ supportedMarkets then
    let rulesPrediction := RuleEngine.evaluate market m
    match getPredictionFromML models market m with
    | some mlPrediction => combinePredictions mlPrediction rulesPrediction
    | none => rulesPrediction
  else { probability := 1/2, confidence := 1/5 }

end Predictor

namespace Detector

/-- Markets analysed by the golden-moment detector (`this.markets`). -/
def markets : List String :=
  ["nextGoal", "over05", "over15", "over25", "btts", "cornerNext10Min"]

/-- Confidence-threshold table (`this.confidenceThresholds`). -/
def confidenceThresholds (plan : String) : Option ℚ :=
  if plan = "free" then some (17/20)
  else if plan = "insider" then some (3/4)
  else if plan = "estratega" then some (13/20)
  else none

/-- Threshold applied for a plan: `confidenceThresholds[userPlan] ||
confidenceThresholds.free` (all table values are nonzero, so the JS `||`
falls back exactly on a missing key). -/
def thresholdFor (plan : String) : ℚ := (confidenceThresholds plan).getD (17/20)

/-- Minimum expected value for an opportunity (`this.minExpectedValue`). -/
def minExpectedValue : ℚ := 1/10

/-- Market-to-API mapping entry of `getOddsForMarket`. -/
structure MarketMapping where
  key : String
  point : Option ℚ
  outcome : String
deriving Repr, DecidableEq

/-- The `marketMapping` table of `getOddsForMarket`. -/
def marketMapping (market : String) : Option MarketMapping :=
  if market = "nextGoal" then some ⟨"next_goal", none, "Home"⟩
  else if market = "over05" then some ⟨"goals_over_under", some (1/2), "Over"⟩
  else if market = "over15" then some ⟨"goals_over_under", some (3/2), "Over"⟩
  else if market = "over25" then some ⟨"goals_over_under", some (5/2), "Over"⟩
  else if market = "btts" then some ⟨"btts", none, "Yes"⟩
  else if market = "cornerNext10Min" then some ⟨"next_corner", none, "Home"⟩
  else none

/-- One bookmaker step of the best-price loop: find the mapped market, find
the outcome (matching the point for over/under lines), skip missing or zero
prices (JS truthiness of `outcome.price`), record the bookmaker and keep the
strictly larger price as the running best. -/
def bestOddsStep (mapping : MarketMapping) (acc : Option ℚ × List BookmakerPrice)
    (bookie : Bookmaker) : Option ℚ × List BookmakerPrice :=
  match bookie.markets.find? (fun mk => decide (mk.key = mapping.key)) with
  | none => acc
  | some marketData =>
    let outcome? : Option OddsOutcome :=
      match mapping.point with
      | some pt =>
        marketData.outcomes.find? fun o =>
          decide (o.name = mapping.outcome ∧ o.point = some pt)
      | none => marketData.outcomes.find? fun o => decide (o.name = mapping.outcome)
    match outcome? with
    | none => acc
    | some o =>
      match o.price with
      | none => acc
      | some price =>
        if price = 0 then acc
        else
          let bookmakers : List BookmakerPrice := acc.2 ++ [⟨bookie.name, price⟩]
          let best : Option ℚ :=
            match acc.1 with
            | none => some price
            | some b => if price > b then some price else some b
          (best, bookmakers)

/-- Best available odds for a market (`GoldenMomentDetector.getOddsForMarket`):
`none` when the snapshot has no odds, the market is unmapped, or no bookmaker
prices the mapped outcome. -/
def getOddsForMarket (market : String) (m : MatchData) : Option OddsInfo :=
  match m.odds with
  | none => none
  | some bookmakers =>
    match marketMapping market with
    | none => none
    | some mapping =>
      let r := bookmakers.foldl (bestOddsStep mapping) (none, [])
      match r.1 with
      | none => none
      | some bestOdds => some { value := bestOdds, bookmakers := r.2 }

/-- Modelled from the spec: the helper `utils/odds-calculator.js` used by
`evaluateAllMarkets` is not among the provided sources; the spec defines
expected value as `probability * decimalOdds - 1`, applied to the best
available decimal price. -/
def calculateExpectedValue (probability : ℚ) (odds : OddsInfo) : ℚ :=
  probability * odds.value - 1

/-- Prediction triple carried by an opportunity. -/
structure OppPrediction where
  probability : ℚ
  confidence : ℚ
  expectedValue : ℚ
deriving Repr, DecidableEq

/-- A detected golden-moment candidate (the detector's opportunity object;
the context strings added by `enrichWithContext` are presentation-only and
omitted here). -/
structure Opportunity where
  market : String
  matchId : String
  teams : Option TeamsInfo
  minute : Option ℚ
  score : Option Score
  prediction : OppPrediction
  odds : OddsInfo
deriving Repr, DecidableEq

/-- Per-market prediction used by the detector
(`GoldenMomentDetector.predictMarket`): the fusion engine's output; its
catch-fallback to the rule engine is unreachable in the embedding because
`predict` is total. -/
def predictMarket (models : String → Option Predictor.MLModel) (market : String)
    (m : MatchData) : Prediction :=
  Predictor.predict models market m

/-- Opportunity record pushed by `evaluateAllMarkets` for a market whose
expected value clears the bar. -/
def mkOpportunity (models : String → Option Predictor.MLModel) (market : String)
    (m : MatchData) (odds : OddsInfo) : Opportunity :=
  let prediction := predictMarket models market m
  { market := market
    matchId := m.id
    teams := m.teams
    minute := m.minute
    score := m.score
    prediction :=
      { probability := prediction.probability
        confidence := prediction.confidence
        expectedValue := calculateExpectedValue prediction.probability odds }
    odds := odds }

/-- Loop body of `evaluateAllMarkets` for one market: compute the fused
prediction, look up the best odds (skip the market when none are found),
compute the expected value and keep the tuple exactly when it reaches
`minExpectedValue`. -/
def evaluateMarketStep (models : String → Option Predictor.MLModel) (m : MatchData)
    (market : String) : Option Opportunity :=
  let prediction := predictMarket models market m
  match getOddsForMarket market m with
  | none => none
  | some odds =>
    let expectedValue := calculateExpectedValue prediction.probability odds
    if expectedValue ≥ minExpectedValue then some (mkOpportunity models market m odds)
    else none

/-- Market sweep (`GoldenMomentDetector.evaluateAllMarkets`): the per-market
loop body applied to every supported market. -/
def evaluateAllMarkets (models : String → Option Predictor.MLModel) (m : MatchData) :
    List Opportunity :=
  markets.filterMap (evaluateMarketStep models m)

/-- Confidence gate (`GoldenMomentDetector.filterByConfidence`): keep the
opportunities whose confidence reaches the plan's threshold. -/
def filterByConfidence (opportunities : List Opportunity) (plan : String) :
    List Opportunity :=
  opportunities.filter fun o => decide (thresholdFor plan ≤ o.prediction.confidence)

/-- Boolean form of the JS sort comparator `(a, b) => b.EV - a.EV`: under a
stable sort, descending expected value with ties kept in evaluation order. -/
def oppLe (a b : Opportunity) : Bool :=
  decide (b.prediction.expectedValue ≤ a.prediction.expectedValue)

/-- Golden-moment detection (`GoldenMomentDetector.detectGoldenMoment`) on an
already-fetched snapshot (`getMatchLiveData` is the asynchronous collaborator
boundary; a failed fetch returns `null` before this logic runs): evaluate all
markets, gate by the plan's confidence threshold, and return the head of the
stable sort by descending expected value, or `none` when nothing survives. -/
def detectGoldenMoment (models : String → Option Predictor.MLModel) (m : MatchData)
    (plan : String) : Option Opportunity :=
  let opportunities := evaluateAllMarkets models m
  let filtered := filterByConfidence opportunities plan
  if filtered.isEmpty then none
  else (filtered.mergeSort oppLe).head?

end Detector

namespace Selector

/-- Relevance/potential weight pair (`MatchSelector.this.weights`). -/
structure SelectorWeights where
  relevance : ℚ
  potential : ℚ
deriving Repr, DecidableEq

/-- Configured weights: 0.7 relevance, 0.3 potential. -/
def selectorWeights : SelectorWeights := ⟨7/10, 3/10⟩

/-- Per-plan monitoring quota table (`this.planLimits`). -/
def planLimits (plan : String) : Option ℕ :=
  if plan = "free" then some 3
  else if plan = "insider" then some 8
  else if plan = "estratega" then some 15
  else none

/-- Quota applied for a plan: `planLimits[userPlan] || planLimits.free` (all
table values are nonzero, so the JS `||` falls back exactly on a missing
key). -/
def planLimitFor (plan : String) : ℕ := (planLimits plan).getD 3

/-- Score triple attached to a match by the selector. -/
structure MatchScores where
  relevance : ℚ
  potential : ℚ
  final : ℚ
deriving Repr, DecidableEq

/-- A match together with its selector scores (the source spreads the match
object and adds `scores`; only the identity is kept here). -/
structure ScoredMatch where
  matchId : String
  scores : MatchScores
deriving Repr, DecidableEq

/-- Scoring of one match: the final score is the raw weighted combination
`relevance * weights.relevance + potential * weights.potential`; the
relevance and potential scoring functions are parameters because the source
computes them through asynchronous collaborators (popularity tables, the ML
potential model, the database and `Math.random` fallbacks). -/
def scoreMatch (w : SelectorWeights) (relevanceOf potentialOf : MatchData → ℚ)
    (m : MatchData) : ScoredMatch :=
  let relevanceScore := relevanceOf m
  let potentialScore := potentialOf m
  { matchId := m.id
    scores :=
      { relevance := relevanceScore
        potential := potentialScore
        final := relevanceScore * w.relevance + potentialScore * w.potential } }

/-- Comparator of the selector's sort `(a, b) => b.scores.final -
a.scores.final` in boolean form. -/
def scoredLe (a b : ScoredMatch) : Bool := decide (b.scores.final ≤ a.scores.final)

/-- Selection pipeline (`MatchSelector.selectMatchesToMonitor`) on an
already-fetched list of available matches: score each match, sort by
descending final score and truncate to the plan's quota; an empty fetch
returns the empty list. -/
def selectMatchesToMonitor (w : SelectorWeights)
    (relevanceOf potentialOf : MatchData → ℚ) (availableMatches : List MatchData)
    (plan : String) : List ScoredMatch :=
  if availableMatches.isEmpty then []
  else
    let matchesWithScores := availableMatches.map (scoreMatch w relevanceOf potentialOf)
    let sortedMatches := matchesWithScores.mergeSort scoredLe
    sortedMatches.take (planLimitFor plan)

end Selector

namespace Controller

/-- Cooldown window of the alert dedup, in milliseconds (15 minutes). -/
def cooldownMs : ℤ := 15 * 60 * 1000

/-- Cooldown test (`GoldenAlertsController.isRecentlyAlerted`): a key never
sent is not recent (`if (!lastAlertTime) return false`, which by JS
truthiness also treats a 0 timestamp as never sent); otherwise recent means
strictly less than 15 minutes have passed. -/
def isRecentlyAlerted (sentAlerts : String → Option ℤ) (alertKey : String) (now : ℤ) :
    Bool :=
  match sentAlerts alertKey with
  | none => false
  | some lastAlertTime =>
    if lastAlertTime = 0 then false
    else decide (now - lastAlertTime < cooldownMs)

/-- Record of one dispatched alert (the hand-off to
`generateAndSendAlert`). -/
structure DispatchedAlert where
  moment : Detector.Opportunity
  plan : String
  alertKey : String
deriving Repr, DecidableEq

/-- Update of the `sentAlerts` map (`monitoring.sentAlerts.set(alertKey,
Date.now())`). -/
def setAlert (sentAlerts : String → Option ℤ) (alertKey : String) (t : ℤ) :
    String → Option ℤ :=
  fun k => if k = alertKey then some t else sentAlerts k

/-- Plans in decreasing exclusivity, the iteration order of
`checkGoldenMomentsForAllPlans`. -/
def plans : List String := ["estratega", "insider", "free"]

/-- Loop body of `checkGoldenMomentsForAllPlans` for one plan: detect a
golden moment, compute the `market_plan` dedup key, skip when that key was
alerted within the cooldown, otherwise dispatch and record the send
timestamp under the key. -/
def processPlanAlert (models : String → Option Predictor.MLModel) (matchData : MatchData)
    (plan : String) (now : ℤ) (st : List DispatchedAlert × (String → Option ℤ)) :
    List DispatchedAlert × (String → Option ℤ) :=
  match Detector.detectGoldenMoment models matchData plan with
  | none => st
  | some goldenMoment =>
    let alertKey := goldenMoment.market ++ "_" ++ plan
    if isRecentlyAlerted st.2 alertKey now then st
    else (st.1 ++ [⟨goldenMoment, plan, alertKey⟩], setAlert st.2 alertKey now)

/-- Per-fixture check (`GoldenAlertsController.checkGoldenMomentsForAllPlans`)
on an already-fetched snapshot: run the per-plan body over all plans,
threading the `sentAlerts` map and collecting the dispatched alerts. -/
def checkGoldenMomentsForAllPlans (models : String → Option Predictor.MLModel)
    (matchData : MatchData) (sentAlerts : String → Option ℤ) (now : ℤ) :
    List DispatchedAlert × (String → Option ℤ) :=
  plans.foldl (fun st plan => processPlanAlert models matchData plan now st)
    ([], sentAlerts)

end Controller

/-! Concrete fixtures used to exercise the pipeline. -/

/-- Model table with no learned estimator loaded for any market. -/
def noModels : String → Option Predictor.MLModel := fun _ => none

/-- Snapshot with every optional field absent. -/
def emptyMatch : MatchData :=
  { id := "m0", teams := none, minute := none, score := none,
    statistics := none, events := none, odds := none }

/-- Live snapshot at minute 50 with a 1-1 score, a dominant home side
(70% possession, 5-0 shots on target, 3-0 corners) and one bookmaker
pricing the next-goal market at 4/3 and the over-0.5 market at 6/5. -/
def tieMatch : MatchData :=
  { id := "m1"
    teams := some ⟨⟨1, "HomeFC"⟩, ⟨2, "AwayFC"⟩⟩
    minute := some 50
    score := some ⟨1, 1⟩
    statistics := some
      [⟨[⟨"Ball Possession", some 70⟩, ⟨"Shots on Goal", some 5⟩,
         ⟨"Corner Kicks", some 3⟩]⟩,
       ⟨[⟨"Shots on Goal", some 0⟩, ⟨"Corner Kicks", some 0⟩]⟩]
    events := none
    odds := some
      [⟨"B1",
        [⟨"next_goal", [⟨"Home", none, some (4/3)⟩]⟩,
         ⟨"goals_over_under", [⟨"Over", some (1/2), some (6/5)⟩]⟩]⟩] }

/-- Next-goal opportunity the detector derives from `tieMatch`: probability
0.9, confidence 0.65, expected value 0.2. -/
def tieOppNextGoal : Detector.Opportunity :=
  { market := "nextGoal"
    matchId := "m1"
    teams := some ⟨⟨1, "HomeFC"⟩, ⟨2, "AwayFC"⟩⟩
    minute := some 50
    score := some ⟨1, 1⟩
    prediction := { probability := 9/10, confidence := 13/20, expectedValue := 1/5 }
    odds := { value := 4/3, bookmakers := [⟨"B1", 4/3⟩] } }

/-- Over-0.5 opportunity the detector derives from `tieMatch`: the line is
already beaten, so probability and confidence are 1 and the expected value is
0.2 at odds 6/5. -/
def tieOppOver05 : Detector.Opportunity :=
  { market := "over05"
    matchId := "m1"
    teams := some ⟨⟨1, "HomeFC"⟩, ⟨2, "AwayFC"⟩⟩
    minute := some 50
    score := some ⟨1, 1⟩
    prediction := { probability := 1, confidence := 1, expectedValue := 1/5 }
    odds := { value := 6/5, bookmakers := [⟨"B1", 6/5⟩] } }

/-- Goalless snapshot at minute 46 with no statistics: no over-factor fires
for the over-0.5 line. -/
def quietMatch : MatchData := { emptyMatch with minute := some 46 }

/-! Evaluation lemmas on the concrete fixtures. -/

/-- Statistics extracted from `tieMatch`. -/
theorem extractStatistics_tieMatch :
    RuleEngine.extractStatistics tieMatch = ⟨70, 5, 0, 3, 0, 0, 0, 5, 3⟩ := by
  simp [RuleEngine.extractStatistics, RuleEngine.defaultStats,
    RuleEngine.applyHomeStat, RuleEngine.applyAwayStat, tieMatch]

/-- The event summary of `tieMatch` is neutral: the snapshot carries no
events. -/
theorem extractRecentEvents_tieMatch :
    RuleEngine.extractRecentEvents tieMatch = RuleEngine.defaultRecentEvents := by
  simp [RuleEngine.extractRecentEvents, tieMatch]

/-- Rule evaluation of the next-goal market on `tieMatch`: three home
factors fire (possession, shots, corners) for a clamped 0.9 probability and
a 0.65 confidence. -/
theorem evaluate_nextGoal_tieMatch :
    RuleEngine.evaluate "nextGoal" tieMatch = ⟨9/10, 13/20⟩ := by
  simp only [RuleEngine.evaluate, String.reduceEq, reduceIte]
  norm_num [RuleEngine.evaluateNextGoal, RuleEngine.nextGoalHomeFactors,
    RuleEngine.nextGoalAwayFactors, RuleEngine.weightSum, extractStatistics_tieMatch,
    extractRecentEvents_tieMatch, RuleEngine.defaultRecentEvents, max_def, min_def]

/-- Rule evaluation of the over-0.5 market on `tieMatch`: two goals already
beat the line, so the deterministic pair is returned. -/
theorem evaluate_over05_tieMatch :
    RuleEngine.evaluate "over05" tieMatch = ⟨1, 1⟩ := by
  simp only [RuleEngine.evaluate, String.reduceEq, reduceIte]
  norm_num [RuleEngine.evaluateOver, tieMatch, MatchData.scoreHome,
    MatchData.scoreAway]

/-- Absent learned estimator: the fused prediction degrades to the rule
engine's output for that market. Unsupported market strings take the
predictor's neutral fallback, which coincides with the rule engine's own
unknown-market fallback. -/
theorem predict_rulesOnly_of_none (models : String → Option Predictor.MLModel)
    (market : String) (m : MatchData) (h : models market = none) :
    Predictor.predict models market m = RuleEngine.evaluate market m := by
  by_cases hm : market ∈ Predictor.supportedMarkets
  · simp [Predictor.predict, hm, Predictor.getPredictionFromML, h]
  · simp only [Predictor.supportedMarkets, List.mem_cons, List.not_mem_nil, or_false,
      not_or] at hm
    obtain ⟨h1, h2, h3, h4, h5, h6⟩ := hm
    simp [Predictor.predict, Predictor.supportedMarkets, h1, h2, h3, h4, h5, h6,
      RuleEngine.evaluate]

/-- Throwing learned estimator: the catch branch of the ML path yields no ML
prediction and the fused prediction degrades to the rule engine's output. -/
theorem predict_rulesOnly_of_error (models : String → Option Predictor.MLModel)
    (market : String) (m : MatchData) (run : Predictor.MLModel) (msg : String)
    (hrun : models market = some run) (herr : run m = Except.error msg) :
    Predictor.predict models market m = RuleEngine.evaluate market m := by
  by_cases hm : market ∈ Predictor.supportedMarkets
  · simp [Predictor.predict, hm, Predictor.getPredictionFromML, hrun, herr]
  · simp only [Predictor.supportedMarkets, List.mem_cons, List.not_mem_nil, or_false,
      not_or] at hm
    obtain ⟨h1, h2, h3, h4, h5, h6⟩ := hm
    simp [Predictor.predict, Predictor.supportedMarkets, h1, h2, h3, h4, h5, h6,
      RuleEngine.evaluate]

/-- Detector-level prediction for the next-goal market on `tieMatch`. -/
theorem predictMarket_tieMatch_nextGoal :
    Detector.predictMarket noModels "nextGoal" tieMatch = ⟨9/10, 13/20⟩ := by
  rw [Detector.predictMarket, predict_rulesOnly_of_none noModels _ _ rfl]
  exact evaluate_nextGoal_tieMatch

/-- Detector-level prediction for the over-0.5 market on `tieMatch`. -/
theorem predictMarket_tieMatch_over05 :
    Detector.predictMarket noModels "over05" tieMatch = ⟨1, 1⟩ := by
  rw [Detector.predictMarket, predict_rulesOnly_of_none noModels _ _ rfl]
  exact evaluate_over05_tieMatch

/-- Best odds for the next-goal market on `tieMatch`. -/
theorem getOdds_tieMatch_nextGoal :
    Detector.getOddsForMarket "nextGoal" tieMatch = some ⟨4/3, [⟨"B1", 4/3⟩]⟩ := by
  have h0 : ((4 : ℚ)/3 = 0) = False := by norm_num
  simp [Detector.getOddsForMarket, Detector.marketMapping, Detector.bestOddsStep,
    tieMatch, h0]

/-- Best odds for the over-0.5 market on `tieMatch`. -/
theorem getOdds_tieMatch_over05 :
    Detector.getOddsForMarket "over05" tieMatch = some ⟨6/5, [⟨"B1", 6/5⟩]⟩ := by
  have h0 : ((6 : ℚ)/5 = 0) = False := by norm_num
  simp [Detector.getOddsForMarket, Detector.marketMapping, Detector.bestOddsStep,
    tieMatch, h0]

/-- No over-1.5 odds on `tieMatch`: the only over/under outcome has point
0.5. -/
theorem getOdds_tieMatch_over15 :
    Detector.getOddsForMarket "over15" tieMatch = none := by
  have hq : ((2 : ℚ)⁻¹ = 3/2) = False := by norm_num
  simp [Detector.getOddsForMarket, Detector.marketMapping, Detector.bestOddsStep,
    tieMatch, hq]

/-- No over-2.5 odds on `tieMatch`. -/
theorem getOdds_tieMatch_over25 :
    Detector.getOddsForMarket "over25" tieMatch = none := by
  have hq : ((2 : ℚ)⁻¹ = 5/2) = False := by norm_num
  simp [Detector.getOddsForMarket, Detector.marketMapping, Detector.bestOddsStep,
    tieMatch, hq]

/-- No BTTS odds on `tieMatch`: no bookmaker market with the `btts` key. -/
theorem getOdds_tieMatch_btts :
    Detector.getOddsForMarket "btts" tieMatch = none := by
  simp [Detector.getOddsForMarket, Detector.marketMapping, Detector.bestOddsStep,
    tieMatch]

/-- No next-corner odds on `tieMatch`. -/
theorem getOdds_tieMatch_corner :
    Detector.getOddsForMarket "cornerNext10Min" tieMatch = none := by
  simp [Detector.getOddsForMarket, Detector.marketMapping, Detector.bestOddsStep,
    tieMatch]

/-- The market sweep of `tieMatch` yields exactly the next-goal and over-0.5
candidates, in market-evaluation order, both with expected value 0.2. -/
theorem evaluateAllMarkets_tieMatch :
    Detector.evaluateAllMarkets noModels tieMatch = [tieOppNextGoal, tieOppOver05] := by
  have hid : tieMatch.id = "m1" := rfl
  have hteams : tieMatch.teams = some ⟨⟨1, "HomeFC"⟩, ⟨2, "AwayFC"⟩⟩ := rfl
  have hminute : tieMatch.minute = some 50 := rfl
  have hscore : tieMatch.score = some ⟨1, 1⟩ := rfl
  norm_num [Detector.evaluateAllMarkets, Detector.evaluateMarketStep, Detector.markets,
    List.filterMap_cons,
    Detector.mkOpportunity, Detector.calculateExpectedValue, Detector.minExpectedValue,
    predictMarket_tieMatch_nextGoal, predictMarket_tieMatch_over05,
    getOdds_tieMatch_nextGoal, getOdds_tieMatch_over05, getOdds_tieMatch_over15,
    getOdds_tieMatch_over25, getOdds_tieMatch_btts, getOdds_tieMatch_corner,
    tieOppNextGoal, tieOppOver05, hid, hteams, hminute, hscore]

/-- Threshold lookup for the free plan. -/
theorem thresholdFor_free : Detector.thresholdFor "free" = 17/20 := by
  simp [Detector.thresholdFor, Detector.confidenceThresholds]

/-- Threshold lookup for the insider plan. -/
theorem thresholdFor_insider : Detector.thresholdFor "insider" = 3/4 := by
  simp [Detector.thresholdFor, Detector.confidenceThresholds]

/-- Threshold lookup for the estratega plan. -/
theorem thresholdFor_estratega : Detector.thresholdFor "estratega" = 13/20 := by
  simp [Detector.thresholdFor, Detector.confidenceThresholds]

/-- Both `tieMatch` candidates clear the estratega confidence threshold. -/
theorem filterByConfidence_tieMatch :
    Detector.filterByConfidence [tieOppNextGoal, tieOppOver05] "estratega" =
      [tieOppNextGoal, tieOppOver05] := by
  norm_num [Detector.filterByConfidence, List.filter_cons, thresholdFor_estratega,
    tieOppNextGoal, tieOppOver05]

/-- The two `tieMatch` candidates tie on expected value, so the stable sort
keeps the evaluation order and the detector returns the next-goal candidate,
although the over-0.5 candidate has the higher confidence. -/
theorem detect_tieMatch :
    Detector.detectGoldenMoment noModels tieMatch "estratega" = some tieOppNextGoal := by
  have hle : Detector.oppLe tieOppNextGoal tieOppOver05 = true := by
    norm_num [Detector.oppLe, tieOppNextGoal, tieOppOver05]
  simp [Detector.detectGoldenMoment, evaluateAllMarkets_tieMatch,
    filterByConfidence_tieMatch, List.mergeSort, hle]

/-! Structural lemmas about the detection pipeline. -/

/-- Membership in the confidence gate: kept exactly when the candidate was
already present and its confidence reaches the plan's threshold. -/
theorem mem_filterByConfidence (opportunities : List Detector.Opportunity)
    (plan : String) (o : Detector.Opportunity) :
    o ∈ Detector.filterByConfidence opportunities plan ↔
      o ∈ opportunities ∧ Detector.thresholdFor plan ≤ o.prediction.confidence := by
  simp [Detector.filterByConfidence, List.mem_filter]

/-- Characterization of the per-market loop body: a candidate is produced
exactly when odds exist and the expected value reaches the bar, and the
candidate is then the constructed opportunity record. -/
theorem evaluateMarketStep_eq_some (models : String → Option Predictor.MLModel)
    (m : MatchData) (market : String) (o : Detector.Opportunity) :
    Detector.evaluateMarketStep models m market = some o ↔
      ∃ odds, Detector.getOddsForMarket market m = some odds ∧
        Detector.minExpectedValue ≤
          Detector.calculateExpectedValue
            (Detector.predictMarket models market m).probability odds ∧
        o = Detector.mkOpportunity models market m odds := by
  unfold Detector.evaluateMarketStep
  rcases hodds : Detector.getOddsForMarket market m with _ | odds
  · simp
  · by_cases hev :
      Detector.minExpectedValue ≤
        Detector.calculateExpectedValue
          (Detector.predictMarket models market m).probability odds
    · simp only [ge_iff_le, if_pos hev]
      constructor
      · rintro h
        exact ⟨odds, rfl, hev, (Option.some.injEq _ _ ▸ h).symm⟩
      · rintro ⟨odds2, h1, _, rfl⟩
        rw [Option.some.injEq] at h1
        rw [h1]
    · simp only [ge_iff_le, if_neg hev]
      constructor
      · rintro h
        exact absurd h (by simp)
      · rintro ⟨odds2, h1, hev2, rfl⟩
        rw [Option.some.injEq] at h1
        subst h1
        exact absurd hev2 hev

/-- The expected value stored on a constructed opportunity is the computed
expected value of its market. -/
theorem mkOpportunity_expectedValue (models : String → Option Predictor.MLModel)
    (market : String) (m : MatchData) (odds : OddsInfo) :
    (Detector.mkOpportunity models market m odds).prediction.expectedValue =
      Detector.calculateExpectedValue
        (Detector.predictMarket models market m).probability odds := rfl

/-- Every candidate surviving the market sweep carries an expected value of
at least `minExpectedValue`. -/
theorem ev_ge_of_mem_evaluateAllMarkets (models : String → Option Predictor.MLModel)
    (m : MatchData) (o : Detector.Opportunity)
    (ho : o ∈ Detector.evaluateAllMarkets models m) :
    Detector.minExpectedValue ≤ o.prediction.expectedValue := by
  rw [Detector.evaluateAllMarkets, List.mem_filterMap] at ho
  obtain ⟨market, _, hstep⟩ := ho
  obtain ⟨odds, _, hev, ho⟩ := (evaluateMarketStep_eq_some models m market o).1 hstep
  rw [ho, mkOpportunity_expectedValue]
  exact hev

/-- The sort comparator is transitive. -/
theorem oppLe_trans (a b c : Detector.Opportunity) :
    Detector.oppLe a b = true → Detector.oppLe b c = true →
      Detector.oppLe a c = true := by
  simp only [Detector.oppLe, decide_eq_true_eq]
  intro h1 h2
  exact le_trans h2 h1

/-- The sort comparator is total. -/
theorem oppLe_total (a b : Detector.Opportunity) :
    (Detector.oppLe a b || Detector.oppLe b a) = true := by
  simp only [Detector.oppLe, Bool.or_eq_true, decide_eq_true_eq]
  exact le_total _ _

/-- A detection result is one of the gated candidates and carries the
largest expected value among them. -/
theorem detect_some_spec (models : String → Option Predictor.MLModel) (m : MatchData)
    (plan : String) (opp : Detector.Opportunity)
    (h : Detector.detectGoldenMoment models m plan = some opp) :
    opp ∈ Detector.filterByConfidence (Detector.evaluateAllMarkets models m) plan ∧
      ∀ o ∈ Detector.filterByConfidence (Detector.evaluateAllMarkets models m) plan,
        o.prediction.expectedValue ≤ opp.prediction.expectedValue := by
  unfold Detector.detectGoldenMoment at h
  by_cases he : (Detector.filterByConfidence (Detector.evaluateAllMarkets models m)
      plan).isEmpty
  · rw [if_pos he] at h
    exact absurd h (by simp)
  · rw [if_neg he] at h
    have hpw := List.sorted_mergeSort oppLe_trans oppLe_total
      (Detector.filterByConfidence (Detector.evaluateAllMarkets models m) plan)
    rcases hsorted : (Detector.filterByConfidence (Detector.evaluateAllMarkets models m)
        plan).mergeSort Detector.oppLe with _ | ⟨x, t⟩
    · rw [hsorted] at h
      exact absurd h (by simp)
    · rw [hsorted] at h hpw
      simp only [List.head?_cons, Option.some.injEq] at h
      subst h
      constructor
      · have hx : x ∈ (Detector.filterByConfidence
            (Detector.evaluateAllMarkets models m) plan).mergeSort Detector.oppLe := by
          rw [hsorted]
          exact List.mem_cons_self _ _
        exact List.mem_mergeSort.1 hx
      · intro o ho
        have ho2 : o ∈ (Detector.filterByConfidence
            (Detector.evaluateAllMarkets models m) plan).mergeSort Detector.oppLe :=
          List.mem_mergeSort.2 ho
        rw [hsorted, List.mem_cons] at ho2
        rcases ho2 with rfl | ho2
        · exact le_refl _
        · have := (List.pairwise_cons.1 hpw).1 o ho2
          simpa [Detector.oppLe] using this

/-- Every selected match carries scores satisfying the raw weighted-sum
equation of `scoreMatch`. -/
theorem scores_of_mem_select (w : Selector.SelectorWeights)
    (relevanceOf potentialOf : MatchData → ℚ) (avail : List MatchData)
    (plan : String) (s : Selector.ScoredMatch)
    (h : s ∈ Selector.selectMatchesToMonitor w relevanceOf potentialOf avail plan) :
    s.scores.final =
      s.scores.relevance * w.relevance + s.scores.potential * w.potential := by
  unfold Selector.selectMatchesToMonitor at h
  by_cases hm : avail.isEmpty
  · rw [if_pos hm] at h
    exact absurd h (by simp)
  · rw [if_neg hm] at h
    have h1 : s ∈ (avail.map (Selector.scoreMatch w relevanceOf potentialOf)).mergeSort
        Selector.scoredLe := List.take_subset _ _ h
    have h2 : s ∈ avail.map (Selector.scoreMatch w relevanceOf potentialOf) :=
      List.mem_mergeSort.1 h1
    obtain ⟨mm, _, rfl⟩ := List.mem_map.1 h2
    rfl

/-- The cooldown test only looks at the map entry of its own key. -/
theorem isRecentlyAlerted_congr (f g : String → Option ℤ) (k : String) (now : ℤ)
    (h : f k = g k) :
    Controller.isRecentlyAlerted f k now = Controller.isRecentlyAlerted g k now := by
  unfold Controller.isRecentlyAlerted
  rw [h]

/-- Invariant threaded through the per-plan loop: every dispatched alert was
cold under the call's initial map, and every map entry is either untouched or
freshly stamped with `now` for a key that was cold initially. -/
def CheckInv (sent : String → Option ℤ) (now : ℤ)
    (st : List Controller.DispatchedAlert × (String → Option ℤ)) : Prop :=
  (∀ e ∈ st.1, Controller.isRecentlyAlerted sent e.alertKey now = false) ∧
    ∀ k, st.2 k = sent k ∨
      (st.2 k = some now ∧ Controller.isRecentlyAlerted sent k now = false)

/-- The per-plan loop body preserves the cold-dispatch invariant. -/
theorem processPlanAlert_inv (models : String → Option Predictor.MLModel)
    (matchData : MatchData) (plan : String) (now : ℤ) (sent : String → Option ℤ)
    (st : List Controller.DispatchedAlert × (String → Option ℤ))
    (hinv : CheckInv sent now st) :
    CheckInv sent now (Controller.processPlanAlert models matchData plan now st) := by
  unfold Controller.processPlanAlert
  rcases Detector.detectGoldenMoment models matchData plan with _ | gm
  · exact hinv
  · by_cases hrec : Controller.isRecentlyAlerted st.2 (gm.market ++ "_" ++ plan) now
    · simpa [hrec] using hinv
    · simp only [hrec, Bool.false_eq_true, if_false]
      have hcold : Controller.isRecentlyAlerted sent (gm.market ++ "_" ++ plan) now
          = false := by
        rcases hinv.2 (gm.market ++ "_" ++ plan) with hsame | ⟨_, hclean⟩
        · rw [← isRecentlyAlerted_congr st.2 sent _ now hsame]
          exact Bool.not_eq_true _ ▸ hrec
        · exact hclean
      constructor
      · intro e he
        rcases List.mem_append.1 he with hold | hnew
        · exact hinv.1 e hold
        · rcases List.mem_singleton.1 hnew with rfl
          exact hcold
      · intro k
        by_cases hk : k = gm.market ++ "_" ++ plan
        · subst hk
          right
          exact ⟨by simp [Controller.setAlert], hcold⟩
        · rcases hinv.2 k with hsame | hfresh
          · left
            rw [← hsame]
            simp [Controller.setAlert, hk]
          · right
            refine ⟨?_, hfresh.2⟩
            rw [← hfresh.1]
            simp [Controller.setAlert, hk]

/-- Folding the loop body over any plan list preserves the invariant. -/
theorem foldl_processPlanAlert_inv (models : String → Option Predictor.MLModel)
    (matchData : MatchData) (now : ℤ) (sent : String → Option ℤ)
    (ps : List String) (st : List Controller.DispatchedAlert × (String → Option ℤ))
    (hinv : CheckInv sent now st) :
    CheckInv sent now
      (ps.foldl (fun acc plan => Controller.processPlanAlert models matchData plan now acc)
        st) := by
  induction ps generalizing st with
  | nil => exact hinv
  | cons p ps ih =>
    exact ih _ (processPlanAlert_inv models matchData p now sent st hinv)

/-- Every alert dispatched by a full per-fixture check was cold under the
`sentAlerts` map the check started from. -/
theorem check_dispatches_cold (models : String → Option Predictor.MLModel)
    (matchData : MatchData) (sent : String → Option ℤ) (now : ℤ)
    (e : Controller.DispatchedAlert)
    (he : e ∈ (Controller.checkGoldenMomentsForAllPlans models matchData sent now).1) :
    Controller.isRecentlyAlerted sent e.alertKey now = false := by
  have hstart : CheckInv sent now ([], sent) := by
    exact ⟨by simp, fun k => Or.inl rfl⟩
  exact (foldl_processPlanAlert_inv models matchData now sent Controller.plans
    ([], sent) hstart).1 e he

/-! Deterministic-resolution lemmas of the rule engine. -/

/-- A score already past the line short-circuits `evaluateOver` to the
deterministic (1, 1) pair. -/
theorem evaluateOver_deterministic (m : MatchData) (threshold : ℚ)
    (h : (m.scoreHome : ℚ) + (m.scoreAway : ℚ) > threshold) :
    RuleEngine.evaluateOver m threshold = ⟨1, 1⟩ := by
  simp only [RuleEngine.evaluateOver]
  rw [if_pos h]

/-- Both sides having scored short-circuits `evaluateBtts` to the
deterministic (1, 1) pair. -/
theorem evaluateBtts_deterministic (m : MatchData)
    (h1 : m.scoreHome > 0) (h2 : m.scoreAway > 0) :
    RuleEngine.evaluateBtts m = ⟨1, 1⟩ := by
  simp only [RuleEngine.evaluateBtts]
  rw [if_pos ⟨h1, h2⟩]

/-- Dispatch of the over-0.5 market. -/
theorem evaluate_over05_eq (m : MatchData) :
    RuleEngine.evaluate "over05" m = RuleEngine.evaluateOver m (1/2) := by
  simp [RuleEngine.evaluate]

/-- Dispatch of the over-1.5 market. -/
theorem evaluate_over15_eq (m : MatchData) :
    RuleEngine.evaluate "over15" m = RuleEngine.evaluateOver m (3/2) := by
  simp [RuleEngine.evaluate]

/-- Dispatch of the over-2.5 market. -/
theorem evaluate_over25_eq (m : MatchData) :
    RuleEngine.evaluate "over25" m = RuleEngine.evaluateOver m (5/2) := by
  simp [RuleEngine.evaluate]

/-- Dispatch of the BTTS market. -/
theorem evaluate_btts_eq (m : MatchData) :
    RuleEngine.evaluate "btts" m = RuleEngine.evaluateBtts m := by
  simp [RuleEngine.evaluate]

/-! Fixtures and evaluations for the fusion-engine claims. -/

/-- Model table whose BTTS estimator returns the in-range probability 0.6. -/
def modelsOk : String → Option Predictor.MLModel :=
  fun market => if market = "btts" then some (fun _ => Except.ok (3/5)) else none

/-- Model table whose BTTS estimator returns the out-of-range probability
1.7 without throwing. -/
def modelsBad : String → Option Predictor.MLModel :=
  fun market => if market = "btts" then some (fun _ => Except.ok (17/10)) else none

/-- Model table whose BTTS estimator always throws. -/
def modelsErr : String → Option Predictor.MLModel :=
  fun market => if market = "btts" then some (fun _ => Except.error "boom") else none

/-- Rule evaluation of the BTTS market on the empty snapshot: only the
early-minute factor fires. -/
theorem evaluate_btts_emptyMatch :
    RuleEngine.evaluate "btts" emptyMatch = ⟨53/90, 17/30⟩ := by
  rw [evaluate_btts_eq]
  norm_num [RuleEngine.evaluateBtts, RuleEngine.bttsFactors, RuleEngine.weightSum,
    RuleEngine.extractStatistics, RuleEngine.defaultStats, emptyMatch,
    MatchData.minuteVal, MatchData.scoreHome, MatchData.scoreAway, max_def, min_def]

/-- The ML path of `modelsOk` yields probability 0.6 with certainty-derived
confidence 0.58. -/
theorem getPredictionFromML_modelsOk :
    Predictor.getPredictionFromML modelsOk "btts" emptyMatch = some ⟨3/5, 29/50⟩ := by
  simp only [Predictor.getPredictionFromML, modelsOk, if_pos rfl]
  norm_num [Predictor.mlConfidenceFromProb, abs_of_pos]

/-- The ML path of `modelsBad` yields the unvalidated probability 1.7 with
confidence 1.46. -/
theorem getPredictionFromML_modelsBad :
    Predictor.getPredictionFromML modelsBad "btts" emptyMatch = some ⟨17/10, 73/50⟩ := by
  simp only [Predictor.getPredictionFromML, modelsBad, if_pos rfl]
  norm_num [Predictor.mlConfidenceFromProb, abs_of_pos]

/-- Fused prediction under `modelsBad`: the out-of-range ML probability 1.7
is combined with the rule output, producing a probability above 1 that is
returned to the caller. -/
theorem predict_modelsBad_eval :
    Predictor.predict modelsBad "btts" emptyMatch = ⟨10336/6705, 511/500⟩ := by
  have hmem : "btts" ∈ Predictor.supportedMarkets := by simp [Predictor.supportedMarkets]
  simp only [Predictor.predict, if_pos hmem, getPredictionFromML_modelsBad,
    evaluate_btts_emptyMatch]
  norm_num [Predictor.combinePredictions, max_def]

/-- Goalless quiet snapshot: no over-0.5 factor fires at minute 46. -/
theorem overFactors_quietMatch : RuleEngine.overFactors quietMatch (1/2) = [] := by
  have hc1 : (⌈((1:ℚ)/2)⌉ : ℤ) = 1 := by
    rw [Int.ceil_eq_iff] <;> norm_num
  have hc2 : (⌈((2:ℚ)⁻¹)⌉ : ℤ) = 1 := by
    rw [Int.ceil_eq_iff] <;> norm_num
  norm_num [RuleEngine.overFactors, RuleEngine.extractStatistics,
    RuleEngine.defaultStats, quietMatch, emptyMatch, MatchData.minuteVal,
    MatchData.scoreHome, MatchData.scoreAway, hc1, hc2]

/-- With no factor fired, the over-0.5 evaluation of `quietMatch` returns
probability 0.6: the 0.75 base scaled by the mid-game phase factor 0.8 — not
the neutral 0.5 of the centered factor shape. -/
theorem evaluateOver_quietMatch :
    RuleEngine.evaluateOver quietMatch (1/2) = ⟨3/5, 158/225⟩ := by
  have hc1 : (⌈((1:ℚ)/2)⌉ : ℤ) = 1 := by
    rw [Int.ceil_eq_iff] <;> norm_num
  have hc2 : (⌈((2:ℚ)⁻¹)⌉ : ℤ) = 1 := by
    rw [Int.ceil_eq_iff] <;> norm_num
  have hmin : MatchData.minuteVal quietMatch = 46 := rfl
  have hsh : MatchData.scoreHome quietMatch = 0 := rfl
  have hsa : MatchData.scoreAway quietMatch = 0 := rfl
  norm_num [RuleEngine.evaluateOver, overFactors_quietMatch, RuleEngine.weightSum,
    RuleEngine.overBaseProbability, RuleEngine.overBaseConfidence,
    hmin, hsh, hsa, hc1, hc2, max_def, min_def]

/-- Modelled from the spec for comparison with the source: the common
factor-analysis probability shape asserted in the spec,
`0.5 + netWeight / (2 · totalWeight)` when total weight is positive, else
0.5. -/
def specFactorShapeProbability (netWeight totalWeight : ℚ) : ℚ :=
  if 0 < totalWeight then 1/2 + netWeight / (2 * totalWeight) else 1/2

/-- Snapshot with a 2-1 score, used to exercise every deterministic
market resolution at once. -/
def bothScoredMatch : MatchData := { emptyMatch with score := some ⟨2, 1⟩ }

/-- Alert map holding one prior send for the next-goal/estratega key at
timestamp 1000000. -/
def witnessSent : String → Option ℤ :=
  fun k => if k = "nextGoal_estratega" then some 1000000 else none

/-! Claim theorems. -/

/-- C1, counterexample to the stated tie-break: on `tieMatch` two candidates
survive the EV and confidence gates with the same expected value 0.2; the
detector returns the next-goal candidate (confidence 0.65) although the
surviving over-0.5 candidate has the strictly larger confidence 1, so ties
are not broken by highest confidence. -/
theorem detector_tie_not_broken_by_confidence :
    Detector.detectGoldenMoment noModels tieMatch "estratega" = some tieOppNextGoal ∧
    tieOppOver05 ∈ Detector.filterByConfidence
      (Detector.evaluateAllMarkets noModels tieMatch) "estratega" ∧
    tieOppOver05.prediction.expectedValue = tieOppNextGoal.prediction.expectedValue ∧
    tieOppNextGoal.prediction.confidence < tieOppOver05.prediction.confidence := by
  refine ⟨detect_tieMatch, ?_, by norm_num [tieOppOver05, tieOppNextGoal],
    by norm_num [tieOppOver05, tieOppNextGoal]⟩
  rw [evaluateAllMarkets_tieMatch, filterByConfidence_tieMatch]
  simp

/-- C1, amended: `detectGoldenMoment` returns at most one opportunity (its
result type is an option); a returned opportunity is one of the candidates
surviving the EV and confidence filters and carries the largest expected
value among them, ties being kept in market-evaluation order by the stable
sort rather than broken by confidence. -/
theorem detector_at_most_one_max_ev (models : String → Option Predictor.MLModel)
    (m : MatchData) (plan : String) (opp : Detector.Opportunity)
    (h : Detector.detectGoldenMoment models m plan = some opp) :
    opp ∈ Detector.filterByConfidence (Detector.evaluateAllMarkets models m) plan ∧
      ∀ o ∈ Detector.filterByConfidence (Detector.evaluateAllMarkets models m) plan,
        o.prediction.expectedValue ≤ opp.prediction.expectedValue :=
  detect_some_spec models m plan opp h

/-- C1, witness: the amended theorem applied to the `tieMatch` detection. -/
theorem detector_at_most_one_max_ev_witness :
    Detector.detectGoldenMoment noModels tieMatch "estratega" = some tieOppNextGoal ∧
      (tieOppNextGoal ∈ Detector.filterByConfidence
          (Detector.evaluateAllMarkets noModels tieMatch) "estratega" ∧
        ∀ o ∈ Detector.filterByConfidence
            (Detector.evaluateAllMarkets noModels tieMatch) "estratega",
          o.prediction.expectedValue ≤ tieOppNextGoal.prediction.expectedValue) :=
  ⟨detect_tieMatch,
    detector_at_most_one_max_ev noModels tieMatch "estratega" tieOppNextGoal
      detect_tieMatch⟩

/-- C2: a market with available odds is kept as a candidate exactly when its
expected value `probability * decimalOdds - 1` reaches `minExpectedValue`;
every candidate of the sweep, and in particular every detected opportunity,
carries an expected value of at least the 0.10 minimum. -/
theorem detector_ev_filter (models : String → Option Predictor.MLModel)
    (m : MatchData) (plan : String) :
    (∀ market odds, Detector.getOddsForMarket market m = some odds →
      (Detector.evaluateMarketStep models m market =
          some (Detector.mkOpportunity models market m odds) ↔
        Detector.minExpectedValue ≤
          Detector.calculateExpectedValue
            (Detector.predictMarket models market m).probability odds)) ∧
    (∀ o ∈ Detector.evaluateAllMarkets models m,
      Detector.minExpectedValue ≤ o.prediction.expectedValue) ∧
    (∀ opp, Detector.detectGoldenMoment models m plan = some opp →
      Detector.minExpectedValue ≤ opp.prediction.expectedValue) ∧
    Detector.minExpectedValue = 1/10 := by
  refine ⟨?_, ?_, ?_, rfl⟩
  · intro market odds hodds
    constructor
    · intro hstep
      obtain ⟨odds2, hodds2, hev, _⟩ :=
        (evaluateMarketStep_eq_some models m market _).1 hstep
      rw [hodds] at hodds2
      rw [Option.some.injEq] at hodds2
      rw [← hodds2] at hev
      exact hev
    · intro hev
      exact (evaluateMarketStep_eq_some models m market _).2 ⟨odds, hodds, hev, rfl⟩
  · exact fun o ho => ev_ge_of_mem_evaluateAllMarkets models m o ho
  · intro opp hopp
    have hmem := (detect_some_spec models m plan opp hopp).1
    have := (mem_filterByConfidence _ plan opp).1 hmem
    exact ev_ge_of_mem_evaluateAllMarkets models m opp this.1

/-- C2, witness: the EV bound applied to the next-goal candidate of
`tieMatch`, whose expected value is 0.2. -/
theorem detector_ev_filter_witness :
    tieOppNextGoal ∈ Detector.evaluateAllMarkets noModels tieMatch ∧
      Detector.minExpectedValue ≤ tieOppNextGoal.prediction.expectedValue := by
  have hmem : tieOppNextGoal ∈ Detector.evaluateAllMarkets noModels tieMatch := by
    rw [evaluateAllMarkets_tieMatch]
    exact List.mem_cons_self _ _
  exact ⟨hmem, (detector_ev_filter noModels tieMatch "free").2.1 _ hmem⟩

/-- C3: a candidate passes the tier filter exactly when its confidence
reaches the tier's threshold, with defaults free 0.85, insider 0.75 and
estratega 0.65. -/
theorem detector_tier_gating (opportunities : List Detector.Opportunity)
    (o : Detector.Opportunity) :
    (o ∈ Detector.filterByConfidence opportunities "free" ↔
      o ∈ opportunities ∧ 17/20 ≤ o.prediction.confidence) ∧
    (o ∈ Detector.filterByConfidence opportunities "insider" ↔
      o ∈ opportunities ∧ 3/4 ≤ o.prediction.confidence) ∧
    (o ∈ Detector.filterByConfidence opportunities "estratega" ↔
      o ∈ opportunities ∧ 13/20 ≤ o.prediction.confidence) := by
  refine ⟨?_, ?_, ?_⟩
  · rw [mem_filterByConfidence, thresholdFor_free]
  · rw [mem_filterByConfidence, thresholdFor_insider]
  · rw [mem_filterByConfidence, thresholdFor_estratega]

/-- C4: any over line already beaten by the current score, and BTTS once
both teams have scored, evaluate to the deterministic pair of probability 1
and confidence 1, regardless of the rest of the snapshot. -/
theorem rule_engine_deterministic_resolution (m : MatchData) :
    (m.scoreHome + m.scoreAway > 0 → RuleEngine.evaluate "over05" m = ⟨1, 1⟩) ∧
    (m.scoreHome + m.scoreAway > 1 → RuleEngine.evaluate "over15" m = ⟨1, 1⟩) ∧
    (m.scoreHome + m.scoreAway > 2 → RuleEngine.evaluate "over25" m = ⟨1, 1⟩) ∧
    (m.scoreHome > 0 → m.scoreAway > 0 → RuleEngine.evaluate "btts" m = ⟨1, 1⟩) := by
  refine ⟨?_, ?_, ?_, ?_⟩
  · intro h
    rw [evaluate_over05_eq]
    refine evaluateOver_deterministic m (1/2) ?_
    have h1 : (1 : ℚ) ≤ (m.scoreHome : ℚ) + (m.scoreAway : ℚ) := by
      exact_mod_cast Nat.succ_le_of_lt h
    linarith
  · intro h
    rw [evaluate_over15_eq]
    refine evaluateOver_deterministic m (3/2) ?_
    have h1 : (2 : ℚ) ≤ (m.scoreHome : ℚ) + (m.scoreAway : ℚ) := by
      exact_mod_cast Nat.succ_le_of_lt h
    linarith
  · intro h
    rw [evaluate_over25_eq]
    refine evaluateOver_deterministic m (5/2) ?_
    have h1 : (3 : ℚ) ≤ (m.scoreHome : ℚ) + (m.scoreAway : ℚ) := by
      exact_mod_cast Nat.succ_le_of_lt h
    linarith
  · intro h1 h2
    rw [evaluate_btts_eq]
    exact evaluateBtts_deterministic m h1 h2

/-- C4, witness: at a 2-1 score every deterministic resolution fires. -/
theorem rule_engine_deterministic_resolution_witness :
    bothScoredMatch.scoreHome + bothScoredMatch.scoreAway > 2 ∧
    bothScoredMatch.scoreHome > 0 ∧ bothScoredMatch.scoreAway > 0 ∧
    RuleEngine.evaluate "over05" bothScoredMatch = ⟨1, 1⟩ ∧
    RuleEngine.evaluate "over15" bothScoredMatch = ⟨1, 1⟩ ∧
    RuleEngine.evaluate "over25" bothScoredMatch = ⟨1, 1⟩ ∧
    RuleEngine.evaluate "btts" bothScoredMatch = ⟨1, 1⟩ :=
  ⟨by decide, by decide, by decide,
    (rule_engine_deterministic_resolution bothScoredMatch).1 (by decide),
    (rule_engine_deterministic_resolution bothScoredMatch).2.1 (by decide),
    (rule_engine_deterministic_resolution bothScoredMatch).2.2.1 (by decide),
    (rule_engine_deterministic_resolution bothScoredMatch).2.2.2 (by decide) (by decide)⟩

/-- C5: whenever the ML path produces a prediction for a supported market,
the fused prediction is exactly the weighted mean with weights
`0.7 · mlConfidence` and `0.3 · rulesConfidence`, and its confidence is the
larger of the two weighted confidences. -/
theorem fusion_formula (models : String → Option Predictor.MLModel) (market : String)
    (m : MatchData) (mlp : Prediction) (hmem : market ∈ Predictor.supportedMarkets)
    (hml : Predictor.getPredictionFromML models market m = some mlp) :
    Predictor.predict models market m =
      ⟨(mlp.probability * ((7/10) * mlp.confidence) +
          (RuleEngine.evaluate market m).probability *
            ((3/10) * (RuleEngine.evaluate market m).confidence)) /
          ((7/10) * mlp.confidence +
            (3/10) * (RuleEngine.evaluate market m).confidence),
        max (mlp.confidence * (7/10))
          ((RuleEngine.evaluate market m).confidence * (3/10))⟩ := by
  simp only [Predictor.predict, if_pos hmem, hml, Predictor.combinePredictions]

/-- C5, witness: the fusion formula applied to the BTTS estimator returning
0.6 on the empty snapshot. -/
theorem fusion_formula_witness :
    "btts" ∈ Predictor.supportedMarkets ∧
    Predictor.getPredictionFromML modelsOk "btts" emptyMatch = some ⟨3/5, 29/50⟩ ∧
    Predictor.predict modelsOk "btts" emptyMatch =
      ⟨((3:ℚ)/5 * ((7/10) * (29/50)) +
          (RuleEngine.evaluate "btts" emptyMatch).probability *
            ((3/10) * (RuleEngine.evaluate "btts" emptyMatch).confidence)) /
          ((7/10) * (29/50) +
            (3/10) * (RuleEngine.evaluate "btts" emptyMatch).confidence),
        max ((29:ℚ)/50 * (7/10))
          ((RuleEngine.evaluate "btts" emptyMatch).confidence * (3/10))⟩ :=
  ⟨by simp [Predictor.supportedMarkets], getPredictionFromML_modelsOk,
    fusion_formula modelsOk "btts" emptyMatch ⟨3/5, 29/50⟩
      (by simp [Predictor.supportedMarkets]) getPredictionFromML_modelsOk⟩

/-- C6, counterexample to the invalid-value fallback: an estimator that
returns the out-of-range probability 1.7 without throwing is not detected;
the fused output has probability above 1 and differs from the rule-only
prediction, so the invalid value propagates to the caller. -/
theorem fusion_invalid_value_propagates :
    (Predictor.predict modelsBad "btts" emptyMatch).probability > 1 ∧
    Predictor.predict modelsBad "btts" emptyMatch ≠
      RuleEngine.evaluate "btts" emptyMatch := by
  rw [predict_modelsBad_eval, evaluate_btts_emptyMatch]
  constructor
  · norm_num
  · intro h
    have := congrArg Prediction.probability h
    norm_num at this

/-- C6, amended: the fusion engine returns exactly the rule-only prediction
when no learned estimator is loaded for the market or when the estimator
throws; a returned numeric value is never validated. -/
theorem fusion_fallback_on_throw (models : String → Option Predictor.MLModel)
    (market : String) (m : MatchData) :
    (models market = none →
      Predictor.predict models market m = RuleEngine.evaluate market m) ∧
    (∀ run msg, models market = some run → run m = Except.error msg →
      Predictor.predict models market m = RuleEngine.evaluate market m) :=
  ⟨fun h => predict_rulesOnly_of_none models market m h,
    fun run msg h1 h2 => predict_rulesOnly_of_error models market m run msg h1 h2⟩

/-- C6, witness: a throwing BTTS estimator degrades to the rule-only
prediction. -/
theorem fusion_fallback_on_throw_witness :
    modelsErr "btts" = some (fun _ => Except.error "boom") ∧
    Predictor.predict modelsErr "btts" emptyMatch =
      RuleEngine.evaluate "btts" emptyMatch :=
  ⟨by simp [modelsErr],
    (fusion_fallback_on_throw modelsErr "btts" emptyMatch).2
      (fun _ => Except.error "boom") "boom" (by simp [modelsErr]) rfl⟩

/-- C7, counterexample to the common shape: on the goalless `quietMatch` at
minute 46 no over-0.5 factor fires, yet the returned probability is 0.6 (the
0.75 line base scaled by the 0.8 phase factor), not the 0.5 demanded by the
centered factor shape. -/
theorem over_market_not_centered_shape :
    RuleEngine.overFactors quietMatch (1/2) = [] ∧
    (RuleEngine.evaluateOver quietMatch (1/2)).probability = 3/5 ∧
    ((3 : ℚ)/5) ≠ specFactorShapeProbability 0 0 := by
  refine ⟨overFactors_quietMatch, ?_, ?_⟩
  · rw [evaluateOver_quietMatch]
  · norm_num [specFactorShapeProbability]

/-- C7, amended: the centered probability shape
`0.5 + netWeight / (2 · totalWeight)` (0.5 when no factor fired) holds for
the next-goal market, clamped to [0.1, 0.9]; the over/BTTS/corner markets
instead adjust market-specific base probabilities by
`totalWeight / maxPossibleWeight` with phase and time corrections. -/
theorem next_goal_centered_shape (m : MatchData) :
    (RuleEngine.evaluateNextGoal m).probability =
      max (1/10) (min (9/10)
        (specFactorShapeProbability
          (RuleEngine.nextGoalHomeWeight m - RuleEngine.nextGoalAwayWeight m)
          (RuleEngine.nextGoalHomeWeight m + RuleEngine.nextGoalAwayWeight m))) := by
  unfold RuleEngine.evaluateNextGoal specFactorShapeProbability
    RuleEngine.nextGoalHomeWeight RuleEngine.nextGoalAwayWeight
  by_cases h0 : 0 < RuleEngine.weightSum (RuleEngine.nextGoalHomeFactors m) +
      RuleEngine.weightSum (RuleEngine.nextGoalAwayFactors m)
  · simp only [gt_iff_lt, if_pos h0]
    rw [mul_comm]
  · simp only [gt_iff_lt, if_neg h0]

/-- Quota lookup for the free plan. -/
theorem planLimitFor_free : Selector.planLimitFor "free" = 3 := by
  simp [Selector.planLimitFor, Selector.planLimits]

/-- Selection of a single constant-scored match under the default weights:
the final score is the plain weighted sum 10·0.7 + 10·0.3 = 10. -/
theorem select_default_single :
    Selector.selectMatchesToMonitor Selector.selectorWeights (fun _ => 10)
      (fun _ => 10) [emptyMatch] "free" = [⟨"m0", ⟨10, 10, 10⟩⟩] := by
  norm_num [Selector.selectMatchesToMonitor, Selector.scoreMatch,
    Selector.selectorWeights, planLimitFor_free, List.mergeSort, emptyMatch]

/-- C8, counterexample to the renormalization invariant: with the
misconfigured weight pair 0.6/0.6 the selector's final score of a match with
relevance 10 and potential 10 is 12, not the 10 that the renormalized pair
0.5/0.5 would give — final scores do depend on the raw weight magnitudes. -/
theorem selector_weights_not_renormalized :
    (Selector.selectMatchesToMonitor ⟨3/5, 3/5⟩ (fun _ => 10) (fun _ => 10)
        [emptyMatch] "free").map (fun s => s.scores.final) = [12] ∧
    (Selector.selectMatchesToMonitor ⟨1/2, 1/2⟩ (fun _ => 10) (fun _ => 10)
        [emptyMatch] "free").map (fun s => s.scores.final) = [10] ∧
    (12 : ℚ) ≠ 10 := by
  refine ⟨?_, ?_, by norm_num⟩ <;>
    norm_num [Selector.selectMatchesToMonitor, Selector.scoreMatch, planLimitFor_free,
      List.mergeSort, emptyMatch]

/-- C8, amended: every selected match's final score is the raw weighted sum
`relevance · wR + potential · wP` of its sub-scores under the configured
weights, with no renormalization; the default weight pair 0.7/0.3 does sum
to 1 as configured. -/
theorem selector_final_score_formula :
    (∀ (w : Selector.SelectorWeights) (relevanceOf potentialOf : MatchData → ℚ)
        (avail : List MatchData) (plan : String) (s : Selector.ScoredMatch),
      s ∈ Selector.selectMatchesToMonitor w relevanceOf potentialOf avail plan →
        s.scores.final =
          s.scores.relevance * w.relevance + s.scores.potential * w.potential) ∧
    Selector.selectorWeights.relevance + Selector.selectorWeights.potential = 1 := by
  constructor
  · intro w relevanceOf potentialOf avail plan s hs
    exact scores_of_mem_select w relevanceOf potentialOf avail plan s hs
  · norm_num [Selector.selectorWeights]

/-- C8, witness: the score formula applied to the single selected match of
`select_default_single`. -/
theorem selector_final_score_formula_witness :
    (⟨"m0", ⟨10, 10, 10⟩⟩ : Selector.ScoredMatch) ∈
      Selector.selectMatchesToMonitor Selector.selectorWeights (fun _ => 10)
        (fun _ => 10) [emptyMatch] "free" ∧
    ((⟨"m0", ⟨10, 10, 10⟩⟩ : Selector.ScoredMatch).scores.final =
      (⟨"m0", ⟨10, 10, 10⟩⟩ : Selector.ScoredMatch).scores.relevance *
          Selector.selectorWeights.relevance +
        (⟨"m0", ⟨10, 10, 10⟩⟩ : Selector.ScoredMatch).scores.potential *
          Selector.selectorWeights.potential) := by
  have hmem : (⟨"m0", ⟨10, 10, 10⟩⟩ : Selector.ScoredMatch) ∈
      Selector.selectMatchesToMonitor Selector.selectorWeights (fun _ => 10)
        (fun _ => 10) [emptyMatch] "free" := by
    rw [select_default_single]
    exact List.mem_cons_self _ _
  exact ⟨hmem,
    selector_final_score_formula.1 Selector.selectorWeights (fun _ => 10) (fun _ => 10)
      [emptyMatch] "free" _ hmem⟩

/-- C9: a dispatched alert is always cold — its `market_plan` key has no
recorded send within the 15-minute cooldown at the start of the check — so a
second detection inside the window is skipped, and once the window has
passed the per-plan body dispatches again and re-records the send
timestamp. -/
theorem controller_cooldown_dedup :
    (∀ (models : String → Option Predictor.MLModel) (matchData : MatchData)
        (sent : String → Option ℤ) (now : ℤ) (e : Controller.DispatchedAlert),
      e ∈ (Controller.checkGoldenMomentsForAllPlans models matchData sent now).1 →
        Controller.isRecentlyAlerted sent e.alertKey now = false) ∧
    (∀ (models : String → Option Predictor.MLModel) (matchData : MatchData)
        (sent : String → Option ℤ) (now : ℤ) (k : String) (t : ℤ),
      sent k = some t → t ≠ 0 → now - t < Controller.cooldownMs →
        ∀ e ∈ (Controller.checkGoldenMomentsForAllPlans models matchData sent now).1,
          e.alertKey ≠ k) ∧
    (∀ (models : String → Option Predictor.MLModel) (matchData : MatchData)
        (plan : String) (now : ℤ)
        (st : List Controller.DispatchedAlert × (String → Option ℤ))
        (gm : Detector.Opportunity) (t : ℤ),
      Detector.detectGoldenMoment models matchData plan = some gm →
      st.2 (gm.market ++ "_" ++ plan) = some t → t ≠ 0 →
      Controller.cooldownMs ≤ now - t →
        Controller.processPlanAlert models matchData plan now st =
          (st.1 ++ [⟨gm, plan, gm.market ++ "_" ++ plan⟩],
            Controller.setAlert st.2 (gm.market ++ "_" ++ plan) now) ∧
        Controller.setAlert st.2 (gm.market ++ "_" ++ plan) now
          (gm.market ++ "_" ++ plan) = some now) := by
  refine ⟨?_, ?_, ?_⟩
  · exact fun models matchData sent now e he =>
      check_dispatches_cold models matchData sent now e he
  · intro models matchData sent now k t hsent ht0 hlt e he hk
    have hcold := check_dispatches_cold models matchData sent now e he
    have htrue : Controller.isRecentlyAlerted sent k now = true := by
      unfold Controller.isRecentlyAlerted
      rw [hsent]
      simp [ht0, hlt]
    rw [hk, htrue] at hcold
    exact Bool.true_eq_false ▸ hcold
  · intro models matchData plan now st gm t hdet hst ht0 hge
    have hnotrec : Controller.isRecentlyAlerted st.2 (gm.market ++ "_" ++ plan) now
        = false := by
      unfold Controller.isRecentlyAlerted
      rw [hst]
      simp [ht0, not_lt.2 hge]
    constructor
    · unfold Controller.processPlanAlert
      rw [hdet]
      simp [hnotrec]
    · simp [Controller.setAlert]

/-- C9, witness: a first send recorded at time 1000000 suppresses any
re-dispatch of the same key at time 1200000 (3.3 minutes later), while at
time 2000000 (16.7 minutes later) the per-plan body dispatches the
`tieMatch` next-goal moment again and re-records the timestamp. -/
theorem controller_cooldown_dedup_witness :
    witnessSent "nextGoal_estratega" = some 1000000 ∧
    (1000000 : ℤ) ≠ 0 ∧
    (1200000 : ℤ) - 1000000 < Controller.cooldownMs ∧
    (∀ e ∈ (Controller.checkGoldenMomentsForAllPlans noModels tieMatch witnessSent
        1200000).1, e.alertKey ≠ "nextGoal_estratega") ∧
    Controller.cooldownMs ≤ (2000000 : ℤ) - 1000000 ∧
    Controller.processPlanAlert noModels tieMatch "estratega" 2000000
        ([], witnessSent) =
      ([⟨tieOppNextGoal, "estratega", "nextGoal_estratega"⟩],
        Controller.setAlert witnessSent "nextGoal_estratega" 2000000) ∧
    Controller.setAlert witnessSent "nextGoal_estratega" 2000000
        "nextGoal_estratega" = some 2000000 := by
  have hsent : witnessSent "nextGoal_estratega" = some 1000000 := by
    simp [witnessSent]
  have ht0 : (1000000 : ℤ) ≠ 0 := by decide
  have hlt : (1200000 : ℤ) - 1000000 < Controller.cooldownMs := by
    decide
  have hge : Controller.cooldownMs ≤ (2000000 : ℤ) - 1000000 := by
    decide
  refine ⟨hsent, ht0, hlt, ?_, hge, ?_, ?_⟩
  · exact fun e he =>
      controller_cooldown_dedup.2.1 noModels tieMatch witnessSent 1200000
        "nextGoal_estratega" 1000000 hsent ht0 hlt e he
  · exact (controller_cooldown_dedup.2.2 noModels tieMatch "estratega" 2000000
      ([], witnessSent) tieOppNextGoal 1000000 detect_tieMatch hsent ht0 hge).1
  · exact (controller_cooldown_dedup.2.2 noModels tieMatch "estratega" 2000000
      ([], witnessSent) tieOppNextGoal 1000000 detect_tieMatch hsent ht0 hge).2

/-- C10: any tier string outside the fixed set degrades to the free tier's
parameters: the detector applies the free confidence threshold 0.85, the
selector applies the free quota 3, and both public operations coincide with
their free-tier behaviour. -/
theorem unknown_tier_degrades_to_free (plan : String)
    (h1 : plan ≠ "free") (h2 : plan ≠ "insider") (h3 : plan ≠ "estratega") :
    Detector.thresholdFor plan = 17/20 ∧
    Selector.planLimitFor plan = 3 ∧
    (∀ opportunities, Detector.filterByConfidence opportunities plan =
      Detector.filterByConfidence opportunities "free") ∧
    (∀ (w : Selector.SelectorWeights) (relevanceOf potentialOf : MatchData → ℚ)
        (avail : List MatchData),
      Selector.selectMatchesToMonitor w relevanceOf potentialOf avail plan =
        Selector.selectMatchesToMonitor w relevanceOf potentialOf avail "free") := by
  have ht : Detector.thresholdFor plan = 17/20 := by
    simp [Detector.thresholdFor, Detector.confidenceThresholds, h1, h2, h3]
  have hl : Selector.planLimitFor plan = 3 := by
    simp [Selector.planLimitFor, Selector.planLimits, h1, h2, h3]
  refine ⟨ht, hl, ?_, ?_⟩
  · intro opportunities
    unfold Detector.filterByConfidence
    rw [ht, thresholdFor_free]
  · intro w relevanceOf potentialOf avail
    unfold Selector.selectMatchesToMonitor
    rw [hl, planLimitFor_free]

/-- C10, witness: the unknown tier string `vip` takes the free threshold and
quota. -/
theorem unknown_tier_degrades_to_free_witness :
    ("vip" : String) ≠ "free" ∧ ("vip" : String) ≠ "insider" ∧
    ("vip" : String) ≠ "estratega" ∧
    Detector.thresholdFor "vip" = 17/20 ∧ Selector.planLimitFor "vip" = 3 := by
  have h1 : ("vip" : String) ≠ "free" := by decide
  have h2 : ("vip" : String) ≠ "insider" := by decide
  have h3 : ("vip" : String) ≠ "estratega" := by decide
  exact ⟨h1, h2, h3, (unknown_tier_degrades_to_free "vip" h1 h2 h3).1,
    (unknown_tier_degrades_to_free "vip" h1 h2 h3).2.1⟩

end Golazo
